import Mathlib

/-!
Shallow embedding of the subgraph event handlers:
the ENS governance mappings (`handleTransfer`, `handleDelegateVotesChanged`,
`handleProposalCreated`, `handleProposalQueued`, `handleProposalExecuted`,
`handleVoteCast`) and the biswap masterchef reward mappings (`handleDeposit`,
`handleWithdraw`, `handleEmergencyWithdraw`).

On-chain integers (`BigInt`) are modelled as `Int`; derived fixed-point
decimals (`BigDecimal`) as `Rat`.  The entity store is modelled as lists of
entities looked up by their `id` field, with `save` replacing the first
entity carrying the same id (upsert).  The observability sink (`log.error`)
is modelled as an append-only list of structured log entries carried in the
store.
-/

namespace Subgraphs

/-- The zero address constant, as its 42-character hex string. -/
def ZERO_ADDRESS : String := "0x0000000000000000000000000000000000000000"

def BIGINT_ZERO : Int := 0

def BIGINT_ONE : Int := 1

def GOVERNANCE_NAME : String := "GOVERNANCE"

def DEFAULT_DECIMALS : Nat := 18

/-- Modelled from the spec: `toDecimal` lives in `helpers.ts`, which is not
under `src/`; per the spec, derived decimals are recomputed from the raw
integer using a fixed scaling factor of 18 decimal places. -/
def toDecimal (value : Int) : Rat :=
  (value : Rat) / ((10 : Rat) ^ DEFAULT_DECIMALS)

/-- Modelled from the spec: the proposal state constants live in
`helpers.ts`, which is not under `src/`; the spec gives the state enum
\x7bPending, Active, Canceled, Queued, Executed\x7d, modelled as strings. -/
def PROPOSAL_STATE_PENDING : String := "PENDING"

def PROPOSAL_STATE_ACTIVE : String := "ACTIVE"

def PROPOSAL_STATE_CANCELED : String := "CANCELED"

def PROPOSAL_STATE_QUEUED : String := "QUEUED"

def PROPOSAL_STATE_EXECUTED : String := "EXECUTED"

/-- Modelled from the spec: `getVoteChoiceByValue` lives in `helpers.ts`,
which is not under `src/`; per the spec it resolves the enum string key by
value (0 = Against, 1 = For, 2 = Abstain) and an out-of-range code is stored
as its literal value. -/
def getVoteChoiceByValue (choiceValue : Int) : String :=
  if choiceValue = 0 then "AGAINST"
  else if choiceValue = 1 then "FOR"
  else if choiceValue = 2 then "ABSTAIN"
  else toString choiceValue

structure TokenHolder where
  id : String
  delegate : Option String
  tokenBalanceRaw : Int
  tokenBalance : Rat
  totalTokensHeldRaw : Int
  totalTokensHeld : Rat
  deriving DecidableEq

structure Delegate where
  id : String
  delegatedVotesRaw : Int
  delegatedVotes : Rat
  tokenHoldersRepresentedAmount : Int
  numberVotes : Int
  deriving DecidableEq

structure Proposal where
  id : String
  proposer : Option String
  targets : List String
  values : List Int
  signatures : List String
  calldatas : List String
  creationBlock : Int
  creationTime : Int
  startBlock : Int
  endBlock : Int
  description : String
  state : String
  executionETA : Option Int
  executionBlock : Int
  executionTime : Int
  cancellationBlock : Int
  cancellationTime : Int
  againstVotes : Int
  forVotes : Int
  abstainVotes : Int
  deriving DecidableEq

structure Vote where
  id : String
  proposal : String
  voter : String
  weight : Int
  reason : String
  choice : String
  deriving DecidableEq

structure Governance where
  id : String
  proposals : Int
  proposalsCanceled : Int
  proposalsQueued : Int
  proposalsExecuted : Int
  currentTokenHolders : Int
  currentDelegates : Int
  delegatedVotesRaw : Int
  delegatedVotes : Rat
  quorumNumerator : Int
  deriving DecidableEq

/-- A structured `log.error` call: the format string and its arguments. -/
structure LogEntry where
  msg : String
  args : List String
  deriving DecidableEq

/-- Find the first entity whose id equals `id` (the store's `load`). -/
def findEntity {β : Type} (idOf : β → String) (id : String) : List β → Option β
  | [] => none
  | v :: rest => if idOf v = id then some v else findEntity idOf id rest

/-- Replace the first entity with the same id, or append (the store's
`save`, i.e. upsert). -/
def saveEntity {β : Type} (idOf : β → String) (v : β) : List β → List β
  | [] => [v]
  | v0 :: rest => if idOf v0 = idOf v then v :: rest else v0 :: saveEntity idOf v rest

/-- Number of entities satisfying `p`, as an integer. -/
def countEntity {β : Type} (p : β → Bool) (l : List β) : Int :=
  ((l.filter p).length : Int)

/-- Sum of an integer field over all entities. -/
def sumEntity {β : Type} (f : β → Int) (l : List β) : Int :=
  (l.map f).sum

theorem findEntity_saveEntity_self {β : Type} (idOf : β → String) (v : β) :
    ∀ l : List β, findEntity idOf (idOf v) (saveEntity idOf v l) = some v := by
  intro l
  induction l with
  | nil => simp [findEntity, saveEntity]
  | cons v0 rest ih =>
      by_cases h : idOf v0 = idOf v
      · simp [findEntity, saveEntity, h]
      · simp [findEntity, saveEntity, h, ih]

theorem findEntity_saveEntity_ne {β : Type} (idOf : β → String) (v : β) (id : String)
    (h : id ≠ idOf v) :
    ∀ l : List β, findEntity idOf id (saveEntity idOf v l) = findEntity idOf id l := by
  intro l
  have h2 : idOf v ≠ id := Ne.symm h
  induction l with
  | nil => simp [findEntity, saveEntity, h2]
  | cons v0 rest ih =>
      by_cases h0 : idOf v0 = idOf v
      · simp [findEntity, saveEntity, h0, h2]
      · simp [findEntity, saveEntity, h0, ih]

theorem mem_saveEntity {β : Type} (idOf : β → String) (v w : β) :
    ∀ l : List β, w ∈ saveEntity idOf v l → w = v ∨ w ∈ l := by
  intro l
  induction l with
  | nil => simp [saveEntity]
  | cons v0 rest ih =>
      by_cases h0 : idOf v0 = idOf v
      · simp only [saveEntity, h0, if_pos]
        intro h
        rcases List.mem_cons.mp h with h | h
        · exact Or.inl h
        · exact Or.inr (List.mem_cons_of_mem _ h)
      · simp only [saveEntity, h0, if_neg, not_false_iff]
        intro h
        rcases List.mem_cons.mp h with h | h
        · exact Or.inr (h ▸ List.mem_cons_self _ _)
        · rcases ih h with h | h
          · exact Or.inl h
          · exact Or.inr (List.mem_cons_of_mem _ h)

/-- The contribution of the entity about to be replaced: `p` of the found
entity, or `0` when absent. -/
def foundCount {β : Type} (p : β → Bool) (idOf : β → String) (id : String) (l : List β) : Int :=
  match findEntity idOf id l with
  | some w => if p w then 1 else 0
  | none => 0

theorem countEntity_saveEntity {β : Type} (p : β → Bool) (idOf : β → String) (v : β) :
    ∀ l : List β,
      countEntity p (saveEntity idOf v l) =
        countEntity p l + (if p v then 1 else 0) - foundCount p idOf (idOf v) l := by
  intro l
  induction l with
  | nil =>
      by_cases hp : p v <;>
        simp [countEntity, saveEntity, foundCount, findEntity, List.filter_cons, hp]
  | cons v0 rest ih =>
      by_cases h0 : idOf v0 = idOf v
      · simp only [saveEntity, h0, if_pos, countEntity, foundCount, findEntity,
          List.filter_cons]
        by_cases hp : p v <;> by_cases hp0 : p v0 <;> simp [hp, hp0] <;> omega
      · simp only [saveEntity, h0, if_neg, not_false_iff, countEntity, foundCount,
          findEntity, List.filter_cons] at ih ⊢
        by_cases hp0 : p v0 <;> simp [hp0] at ih ⊢ <;>
          cases hfind : findEntity idOf (idOf v) rest <;>
            simp [hfind] at ih ⊢ <;> omega

/-- The integer field of the entity about to be replaced, or `0` when
absent. -/
def foundSum {β : Type} (f : β → Int) (idOf : β → String) (id : String) (l : List β) : Int :=
  match findEntity idOf id l with
  | some w => f w
  | none => 0

theorem sumEntity_saveEntity {β : Type} (f : β → Int) (idOf : β → String) (v : β) :
    ∀ l : List β,
      sumEntity f (saveEntity idOf v l) =
        sumEntity f l + f v - foundSum f idOf (idOf v) l := by
  intro l
  induction l with
  | nil => simp [sumEntity, saveEntity, foundSum, findEntity]
  | cons v0 rest ih =>
      by_cases h0 : idOf v0 = idOf v
      · simp only [saveEntity, h0, if_pos, sumEntity, foundSum, findEntity,
          List.map_cons, List.sum_cons]
        omega
      · simp only [saveEntity, h0, if_neg, not_false_iff, sumEntity, foundSum,
          findEntity, List.map_cons, List.sum_cons] at ih ⊢
        cases hfind : findEntity idOf (idOf v) rest <;> simp [hfind] at ih ⊢ <;> omega

/-- The entity store plus the observability sink.  Modelled from the spec:
the entity store and the governance singleton live in the host runtime and
in `helpers.ts`, neither of which is under `src/`; per the spec the store
supports load / create / save (upsert) per entity type, and the
`Governance` singleton is created zero-valued on first access, so it is
carried as an always-present field. -/
structure Store where
  holders : List TokenHolder
  delegates : List Delegate
  proposals : List Proposal
  votes : List Vote
  governance : Governance
  logs : List LogEntry
  deriving DecidableEq

def initialGovernance : Governance :=
  { id := GOVERNANCE_NAME, proposals := 0, proposalsCanceled := 0, proposalsQueued := 0,
    proposalsExecuted := 0, currentTokenHolders := 0, currentDelegates := 0,
    delegatedVotesRaw := 0, delegatedVotes := 0, quorumNumerator := 0 }

def emptyStore : Store :=
  { holders := [], delegates := [], proposals := [], votes := [],
    governance := initialGovernance, logs := [] }

/-- Modelled from the spec: a zero-valued `TokenHolder` materialized by
get-or-create. -/
def freshTokenHolder (id : String) : TokenHolder :=
  { id := id, delegate := none, tokenBalanceRaw := 0, tokenBalance := 0,
    totalTokensHeldRaw := 0, totalTokensHeld := 0 }

/-- Modelled from the spec: a zero-valued `Delegate` materialized by
get-or-create (also what `new Delegate(id)` denotes before any field is
set). -/
def freshDelegate (id : String) : Delegate :=
  { id := id, delegatedVotesRaw := 0, delegatedVotes := 0,
    tokenHoldersRepresentedAmount := 0, numberVotes := 0 }

/-- Modelled from the spec: a default-valued `Proposal` materialized by
get-or-create. -/
def freshProposal (id : String) : Proposal :=
  { id := id, proposer := none, targets := [], values := [], signatures := [],
    calldatas := [], creationBlock := 0, creationTime := 0, startBlock := 0,
    endBlock := 0, description := "", state := PROPOSAL_STATE_PENDING,
    executionETA := none, executionBlock := 0, executionTime := 0,
    cancellationBlock := 0, cancellationTime := 0, againstVotes := 0,
    forVotes := 0, abstainVotes := 0 }

/-- Modelled from the spec: `getTokenHolder` in `helpers.ts` (not under
`src/`) is get-or-create. -/
def getTokenHolder (id : String) (store : Store) : TokenHolder :=
  match findEntity TokenHolder.id id store.holders with
  | some holder => holder
  | none => freshTokenHolder id

/-- Modelled from the spec: `getDelegate` in `helpers.ts` (not under
`src/`) is get-or-create — it silently materializes a zero-valued entity
and never returns an absent value. -/
def getDelegate (id : String) (store : Store) : Delegate :=
  match findEntity Delegate.id id store.delegates with
  | some delegate => delegate
  | none => freshDelegate id

/-- Modelled from the spec: `getProposal` in `helpers.ts` (not under
`src/`) is get-or-create. -/
def getProposal (id : String) (store : Store) : Proposal :=
  match findEntity Proposal.id id store.proposals with
  | some proposal => proposal
  | none => freshProposal id

def saveTokenHolder (holder : TokenHolder) (store : Store) : Store :=
  { store with holders := saveEntity TokenHolder.id holder store.holders }

def saveDelegate (delegate : Delegate) (store : Store) : Store :=
  { store with delegates := saveEntity Delegate.id delegate store.delegates }

def saveProposal (proposal : Proposal) (store : Store) : Store :=
  { store with proposals := saveEntity Proposal.id proposal store.proposals }

def saveVote (vote : Vote) (store : Store) : Store :=
  { store with votes := saveEntity Vote.id vote store.votes }

def saveGovernance (governance : Governance) (store : Store) : Store :=
  { store with governance := governance }

/-- `log.error`: appends a structured entry to the observability sink. -/
def logError (msg : String) (args : List String) (store : Store) : Store :=
  { store with logs := store.logs ++ [{ msg := msg, args := args }] }

/-! ## Transfer handler (`handleTransfer`, `src/unnamed/part_000` lines 260-329) -/

structure TransferEvent where
  fromAddress : String
  toAddress : String
  value : Int

def negativeBalanceMsg : String := "Negative balance on holder \x7b\x7d with balance \x7b\x7d"

/-- The from-holder after the debit: raw balance decremented and the derived
decimal recomputed (lines 273-274). -/
def debitedHolder (holder : TokenHolder) (value : Int) : TokenHolder :=
  { holder with tokenBalanceRaw := holder.tokenBalanceRaw - value,
                tokenBalance := toDecimal (holder.tokenBalanceRaw - value) }

/-- The to-holder after the credit: raw balance and total tokens held
incremented, derived decimals recomputed (lines 306-309). -/
def creditedHolder (holder : TokenHolder) (value : Int) : TokenHolder :=
  { holder with tokenBalanceRaw := holder.tokenBalanceRaw + value,
                tokenBalance := toDecimal (holder.tokenBalanceRaw + value),
                totalTokensHeldRaw := holder.totalTokensHeldRaw + value,
                totalTokensHeld := toDecimal (holder.totalTokensHeldRaw + value) }

/-- The `Governance.currentTokenHolders` zero-crossing update used by both
sides of `handleTransfer` (lines 283-299 and 311-327): decrement and save
when the balance moved from positive to exactly zero, increment and save
when it moved from exactly zero to positive. -/
def crossingUpdate (previousBalance newBalance : Int) (store : Store) : Store :=
  if newBalance = BIGINT_ZERO ∧ previousBalance > BIGINT_ZERO then
    saveGovernance
      { store.governance with
        currentTokenHolders := store.governance.currentTokenHolders - BIGINT_ONE } store
  else if newBalance > BIGINT_ZERO ∧ previousBalance = BIGINT_ZERO then
    saveGovernance
      { store.governance with
        currentTokenHolders := store.governance.currentTokenHolders + BIGINT_ONE } store
  else store

/-- Lines 271-302: debit the from-holder (skipped for the zero address),
log the integrity fault when the result is negative, apply the
zero-crossing governance update using the previous balance captured before
mutation, and save the holder. -/
def transferDebit (event : TransferEvent) (fromHolder : TokenHolder) (store : Store) : Store :=
  if event.fromAddress ≠ ZERO_ADDRESS then
    let fromHolderPreviousBalance := fromHolder.tokenBalanceRaw
    let updated := debitedHolder fromHolder event.value
    let store1 :=
      if updated.tokenBalanceRaw < BIGINT_ZERO then
        logError negativeBalanceMsg [updated.id, toString updated.tokenBalanceRaw] store
      else store
    let store2 := crossingUpdate fromHolderPreviousBalance updated.tokenBalanceRaw store1
    saveTokenHolder updated store2
  else store

/-- Lines 304-328: credit the to-holder, apply the zero-crossing governance
update using the previous balance captured before mutation, and save the
holder. -/
def transferCredit (event : TransferEvent) (toHolder : TokenHolder) (store : Store) : Store :=
  let toHolderPreviousBalance := toHolder.tokenBalanceRaw
  let updated := creditedHolder toHolder event.value
  let store1 := crossingUpdate toHolderPreviousBalance updated.tokenBalanceRaw store
  saveTokenHolder updated store1

/-- `handleTransfer`: both holders are loaded up front, before either side
mutates anything (lines 265-266), so when `from = to` the two sides operate
on two independently captured copies of the same entity. -/
def handleTransfer (event : TransferEvent) (store : Store) : Store :=
  let fromHolder := getTokenHolder event.fromAddress store
  let toHolder := getTokenHolder event.toAddress store
  let store1 := transferDebit event fromHolder store
  transferCredit event toHolder store1

/-! ## DelegateVotesChanged handler (lines 232-257) -/

structure DelegateVotesChangedEvent where
  delegate : String
  previousBalance : Int
  newBalance : Int

/-- `handleDelegateVotesChanged`: builds a fresh `Delegate` record carrying
`newBalance`, saves it, then updates the governance singleton.  Note the
decrement branch (lines 249-251) tests only `newBalance == 0`, with no
guard on `previousBalance`. -/
def handleDelegateVotesChanged (event : DelegateVotesChangedEvent) (store : Store) : Store :=
  let votesDifference := event.newBalance - event.previousBalance
  let delegate :=
    { freshDelegate event.delegate with
      delegatedVotesRaw := event.newBalance,
      delegatedVotes := toDecimal event.newBalance }
  let store1 := saveDelegate delegate store
  let governance := store1.governance
  let governance :=
    if event.previousBalance = BIGINT_ZERO ∧ event.newBalance > BIGINT_ZERO then
      { governance with currentDelegates := governance.currentDelegates + BIGINT_ONE }
    else governance
  let governance :=
    if event.newBalance = BIGINT_ZERO then
      { governance with currentDelegates := governance.currentDelegates - BIGINT_ONE }
    else governance
  let governance :=
    { governance with delegatedVotesRaw := governance.delegatedVotesRaw + votesDifference }
  let governance :=
    { governance with delegatedVotes := toDecimal governance.delegatedVotesRaw }
  saveGovernance governance store1

/-! ## Proposal lifecycle handlers (lines 93-160) -/

structure ProposalCreatedEvent where
  proposalId : Int
  proposer : String
  targets : List String
  values : List Int
  signatures : List String
  calldatas : List String
  startBlock : Int
  endBlock : Int
  description : String
  blockNumber : Int
  blockTimestamp : Int
  txHash : String

def delegateNotFoundMsg : String :=
  "Delegate participant \x7b\x7d not found on ProposalCreated. tx_hash: \x7b\x7d"

/-- Mirrors the source's `proposer == null` test (line 99).  Modelled from
the spec: `getDelegate` is get-or-create and never returns an absent value,
so this test is identically `false` and the error branch is unreachable. -/
def proposerMissing (proposer : Delegate) : Bool := false

/-- `addressesToHexStrings` from `helpers.ts` (not under `src/`): addresses
are already modelled as their hex strings, so it is the identity map. -/
def addressesToHexStrings (addresses : List String) : List String := addresses

/-- `handleProposalCreated` (lines 93-129). -/
def handleProposalCreated (event : ProposalCreatedEvent) (store : Store) : Store :=
  let proposal := getProposal (toString event.proposalId) store
  let proposer := getDelegate event.proposer store
  let store1 :=
    if proposerMissing proposer then
      logError delegateNotFoundMsg [event.proposer, event.txHash] store
    else store
  let proposal :=
    { proposal with
      proposer := some proposer.id,
      targets := addressesToHexStrings event.targets,
      values := event.values,
      signatures := event.signatures,
      calldatas := event.calldatas,
      creationBlock := event.blockNumber,
      creationTime := event.blockTimestamp,
      startBlock := event.startBlock,
      endBlock := event.endBlock,
      description := event.description,
      state :=
        if event.blockNumber ≥ event.startBlock then PROPOSAL_STATE_ACTIVE
        else PROPOSAL_STATE_PENDING }
  let store2 := saveProposal proposal store1
  let governance :=
    { store2.governance with proposals := store2.governance.proposals + BIGINT_ONE }
  saveGovernance governance store2

structure ProposalQueuedEvent where
  proposalId : Int
  eta : Int

/-- `handleProposalQueued` (lines 149-160). -/
def handleProposalQueued (event : ProposalQueuedEvent) (store : Store) : Store :=
  let proposal := getProposal (toString event.proposalId) store
  let proposal :=
    { proposal with state := PROPOSAL_STATE_QUEUED, executionETA := some event.eta }
  let store1 := saveProposal proposal store
  let governance :=
    { store1.governance with
      proposalsQueued := store1.governance.proposalsQueued + BIGINT_ONE }
  saveGovernance governance store1

structure ProposalExecutedEvent where
  proposalId : Int
  blockNumber : Int
  blockTimestamp : Int

/-- `handleProposalExecuted` (lines 132-146). -/
def handleProposalExecuted (event : ProposalExecutedEvent) (store : Store) : Store :=
  let proposal := getProposal (toString event.proposalId) store
  let proposal :=
    { proposal with
      state := PROPOSAL_STATE_EXECUTED,
      executionETA := none,
      executionBlock := event.blockNumber,
      executionTime := event.blockTimestamp }
  let store1 := saveProposal proposal store
  let governance :=
    { store1.governance with
      proposalsQueued := store1.governance.proposalsQueued - BIGINT_ONE,
      proposalsExecuted := store1.governance.proposalsExecuted + BIGINT_ONE }
  saveGovernance governance store1

/-! ## VoteCast handler (lines 176-210) -/

structure VoteCastEvent where
  voter : String
  proposalId : Int
  support : Int
  weight : Int
  reason : String

/-- `handleVoteCast` (lines 176-210).  The final step constructs the voter
`Delegate` fresh (`new Delegate(voterAddress)`) rather than loading it, so
the saved record carries default values in every field other than
`numberVotes`. -/
def handleVoteCast (event : VoteCastEvent) (store : Store) : Store :=
  let proposalId := toString event.proposalId
  let voterAddress := event.voter
  let voteId := voterAddress ++ "-" ++ proposalId
  let vote : Vote :=
    { id := voteId, proposal := proposalId, voter := voterAddress,
      weight := event.weight, reason := event.reason,
      choice := getVoteChoiceByValue event.support }
  let store1 := saveVote vote store
  let proposal := getProposal proposalId store1
  let proposal :=
    if proposal.state = PROPOSAL_STATE_PENDING then
      { proposal with state := PROPOSAL_STATE_ACTIVE }
    else proposal
  let proposal :=
    if event.support = 0 then
      { proposal with againstVotes := proposal.againstVotes + BIGINT_ONE }
    else if event.support = 1 then
      { proposal with forVotes := proposal.forVotes + BIGINT_ONE }
    else if event.support = 2 then
      { proposal with abstainVotes := proposal.abstainVotes + BIGINT_ONE }
    else proposal
  let store2 := saveProposal proposal store1
  let voter := freshDelegate voterAddress
  let voter := { voter with numberVotes := voter.numberVotes + 1 }
  saveDelegate voter store2

/-! ## Masterchef reward handlers
(`src/subgraphs/uniswap-forks/protocols/biswap/src/mappings/masterchef/reward.ts`) -/

def BIGINT_NEG_ONE : Int := -1

structure MasterChefEvent where
  pid : Int
  amount : Int

/-- The argument record passed to the reward-accounting collaborator. -/
structure RewardCall where
  pid : Int
  amount : Int
  deriving DecidableEq

/-- Modelled from the spec: `handleReward`
(`protocols/../common/handlers/handleReward.ts`, not under `src/`) is the
external reward-accounting collaborator's single entry point accepting
(event context, pool id, signed amount delta); modelled as recording its
pool id and amount arguments. -/
def handleReward (pid : Int) (amount : Int) : RewardCall :=
  { pid := pid, amount := amount }

/-- `handleDeposit` (reward.ts lines 8-14). -/
def handleDeposit (event : MasterChefEvent) : RewardCall :=
  handleReward event.pid event.amount

/-- `handleWithdraw` (reward.ts lines 17-23). -/
def handleWithdraw (event : MasterChefEvent) : RewardCall :=
  handleReward event.pid (event.amount * BIGINT_NEG_ONE)

/-- `handleEmergencyWithdraw` (reward.ts lines 26-32). -/
def handleEmergencyWithdraw (event : MasterChefEvent) : RewardCall :=
  handleReward event.pid (event.amount * BIGINT_NEG_ONE)

/-! ## Event sequences -/

/-- Apply an ordered event sequence through a handler, left to right. -/
def applyEvents {ε : Type} (handler : ε → Store → Store)
    (events : List ε) (store : Store) : Store :=
  events.foldl (fun s e => handler e s) store

/-- A per-event admissibility check evaluated along the trace: each event is
checked against the store state it is applied to. -/
def traceOkB {ε : Type} (handler : ε → Store → Store) (ok : Store → ε → Bool) :
    Store → List ε → Bool
  | _, [] => true
  | s, e :: rest => ok s e && traceOkB handler ok (handler e s) rest

theorem applyEvents_cons {ε : Type} (handler : ε → Store → Store)
    (e : ε) (rest : List ε) (s : Store) :
    applyEvents handler (e :: rest) s = applyEvents handler rest (handler e s) := rfl

theorem applyEvents_invariant {ε : Type} (handler : ε → Store → Store)
    (ok : Store → ε → Bool) (P : Store → Prop)
    (step : ∀ s e, P s → ok s e = true → P (handler e s)) :
    ∀ (events : List ε) (s : Store), P s → traceOkB handler ok s events = true →
      P (applyEvents handler events s) := by
  intro events
  induction events with
  | nil => intro s h _; exact h
  | cons e rest ih =>
      intro s h hok
      rw [traceOkB, Bool.and_eq_true] at hok
      exact ih (handler e s) (step s e h hok.1) hok.2

/-! ## Derived store quantities -/

/-- Number of `TokenHolder` entities with strictly positive raw balance. -/
def countPositiveHolders (l : List TokenHolder) : Int :=
  countEntity (fun h => decide (0 < h.tokenBalanceRaw)) l

/-- Number of `Delegate` entities with strictly positive raw delegated
votes. -/
def countPositiveDelegates (l : List Delegate) : Int :=
  countEntity (fun d => decide (0 < d.delegatedVotesRaw)) l

/-- Sum of `tokenBalanceRaw` over all `TokenHolder` entities. -/
def sumBalances (l : List TokenHolder) : Int :=
  sumEntity TokenHolder.tokenBalanceRaw l

/-- Sum of the values of all mint events (`from` is the zero address). -/
def mintedTotal (events : List TransferEvent) : Int :=
  ((events.filter (fun e => decide (e.fromAddress = ZERO_ADDRESS))).map
    TransferEvent.value).sum

/-! ## Basic lookup lemmas -/

theorem findEntity_eq_some_id {β : Type} (idOf : β → String) (id : String) :
    ∀ (l : List β) (w : β), findEntity idOf id l = some w → idOf w = id := by
  intro l
  induction l with
  | nil => intro w h; simp [findEntity] at h
  | cons v0 rest ih =>
      intro w h
      by_cases h0 : idOf v0 = id
      · simp [findEntity, h0] at h
        rw [← h]; exact h0
      · simp [findEntity, h0] at h
        exact ih w h

theorem findEntity_eq_some_mem {β : Type} (idOf : β → String) (id : String) :
    ∀ (l : List β) (w : β), findEntity idOf id l = some w → w ∈ l := by
  intro l
  induction l with
  | nil => intro w h; simp [findEntity] at h
  | cons v0 rest ih =>
      intro w h
      by_cases h0 : idOf v0 = id
      · simp [findEntity, h0] at h
        rw [← h]; exact List.mem_cons_self _ _
      · simp [findEntity, h0] at h
        exact List.mem_cons_of_mem _ (ih w h)

theorem getTokenHolder_id (id : String) (s : Store) : (getTokenHolder id s).id = id := by
  unfold getTokenHolder
  cases h : findEntity TokenHolder.id id s.holders with
  | some w => exact findEntity_eq_some_id TokenHolder.id id s.holders w h
  | none => rfl

theorem getTokenHolder_nonneg (id : String) (s : Store)
    (hnn : ∀ h ∈ s.holders, 0 ≤ h.tokenBalanceRaw) :
    0 ≤ (getTokenHolder id s).tokenBalanceRaw := by
  unfold getTokenHolder
  cases h : findEntity TokenHolder.id id s.holders with
  | some w => exact hnn w (findEntity_eq_some_mem TokenHolder.id id s.holders w h)
  | none => simp [freshTokenHolder]

/-- The count contribution of the entity stored at `id` equals the
positivity of the get-or-create result (absent entities count as balance
zero). -/
theorem foundCount_holders (id : String) (s : Store) :
    foundCount (fun h => decide (0 < h.tokenBalanceRaw)) TokenHolder.id id s.holders =
      if 0 < (getTokenHolder id s).tokenBalanceRaw then 1 else 0 := by
  unfold foundCount getTokenHolder
  cases h : findEntity TokenHolder.id id s.holders with
  | some w => simp
  | none => simp [freshTokenHolder]

/-- The sum contribution of the entity stored at `id` equals the raw
balance of the get-or-create result. -/
theorem foundSum_holders (id : String) (s : Store) :
    foundSum TokenHolder.tokenBalanceRaw TokenHolder.id id s.holders =
      (getTokenHolder id s).tokenBalanceRaw := by
  unfold foundSum getTokenHolder
  cases h : findEntity TokenHolder.id id s.holders with
  | some w => simp
  | none => simp [freshTokenHolder]

theorem getDelegate_votesRaw (id : String) (s : Store) :
    foundCount (fun d => decide (0 < d.delegatedVotesRaw)) Delegate.id id s.delegates =
      if 0 < (getDelegate id s).delegatedVotesRaw then 1 else 0 := by
  unfold foundCount getDelegate
  cases h : findEntity Delegate.id id s.delegates with
  | some w => simp
  | none => simp [freshDelegate]

/-! ## Projection lemmas for the primitive store operations -/

theorem saveTokenHolder_holders (h : TokenHolder) (s : Store) :
    (saveTokenHolder h s).holders = saveEntity TokenHolder.id h s.holders := rfl

theorem saveTokenHolder_governance (h : TokenHolder) (s : Store) :
    (saveTokenHolder h s).governance = s.governance := rfl

theorem saveTokenHolder_logs (h : TokenHolder) (s : Store) :
    (saveTokenHolder h s).logs = s.logs := rfl

theorem logError_holders (m : String) (a : List String) (s : Store) :
    (logError m a s).holders = s.holders := rfl

theorem logError_governance (m : String) (a : List String) (s : Store) :
    (logError m a s).governance = s.governance := rfl

theorem logError_logs (m : String) (a : List String) (s : Store) :
    (logError m a s).logs = s.logs ++ [{ msg := m, args := a }] := rfl

theorem debitedHolder_tokenBalanceRaw (h : TokenHolder) (v : Int) :
    (debitedHolder h v).tokenBalanceRaw = h.tokenBalanceRaw - v := rfl

theorem debitedHolder_id (h : TokenHolder) (v : Int) :
    (debitedHolder h v).id = h.id := rfl

theorem creditedHolder_tokenBalanceRaw (h : TokenHolder) (v : Int) :
    (creditedHolder h v).tokenBalanceRaw = h.tokenBalanceRaw + v := rfl

theorem creditedHolder_id (h : TokenHolder) (v : Int) :
    (creditedHolder h v).id = h.id := rfl

/-- The governance counter delta applied by `crossingUpdate`. -/
def crossingDelta (previousBalance newBalance : Int) : Int :=
  if newBalance = 0 ∧ previousBalance > 0 then -1
  else if newBalance > 0 ∧ previousBalance = 0 then 1
  else 0

theorem crossingUpdate_holders (p n : Int) (s : Store) :
    (crossingUpdate p n s).holders = s.holders := by
  unfold crossingUpdate saveGovernance
  split_ifs <;> rfl

theorem crossingUpdate_logs (p n : Int) (s : Store) :
    (crossingUpdate p n s).logs = s.logs := by
  unfold crossingUpdate saveGovernance
  split_ifs <;> rfl

theorem crossingUpdate_currentTokenHolders (p n : Int) (s : Store) :
    (crossingUpdate p n s).governance.currentTokenHolders =
      s.governance.currentTokenHolders + crossingDelta p n := by
  unfold crossingUpdate crossingDelta saveGovernance BIGINT_ZERO BIGINT_ONE
  split_ifs <;> simp <;> omega

/-- On non-negative balances, the zero-crossing delta is exactly the change
in the holder's contribution to the positive-balance count. -/
theorem crossingDelta_eq (p n : Int) (hp : 0 ≤ p) (hn : 0 ≤ n) :
    crossingDelta p n = (if 0 < n then (1 : Int) else 0) - (if 0 < p then 1 else 0) := by
  unfold crossingDelta
  split_ifs <;> omega

/-! ## Component lemmas for `handleTransfer` -/

theorem transferDebit_holders (e : TransferEvent) (fh : TokenHolder) (s : Store) :
    (transferDebit e fh s).holders =
      if e.fromAddress = ZERO_ADDRESS then s.holders
      else saveEntity TokenHolder.id (debitedHolder fh e.value) s.holders := by
  by_cases h : e.fromAddress = ZERO_ADDRESS
  · simp [transferDebit, h]
  · simp only [transferDebit, h, ne_eq, not_false_iff, if_true, if_neg,
      saveTokenHolder_holders, crossingUpdate_holders]
    split_ifs <;> simp [logError_holders]

theorem transferDebit_currentTokenHolders (e : TransferEvent) (fh : TokenHolder) (s : Store) :
    (transferDebit e fh s).governance.currentTokenHolders =
      s.governance.currentTokenHolders +
        (if e.fromAddress = ZERO_ADDRESS then 0
         else crossingDelta fh.tokenBalanceRaw (fh.tokenBalanceRaw - e.value)) := by
  by_cases h : e.fromAddress = ZERO_ADDRESS
  · simp [transferDebit, h]
  · simp only [transferDebit, h, ne_eq, not_false_iff, if_true, if_neg,
      saveTokenHolder_governance, debitedHolder_tokenBalanceRaw]
    rw [crossingUpdate_currentTokenHolders]
    split_ifs with hlog <;> simp [logError_governance]

theorem transferDebit_logs (e : TransferEvent) (fh : TokenHolder) (s : Store) :
    (transferDebit e fh s).logs =
      s.logs ++
        (if e.fromAddress ≠ ZERO_ADDRESS ∧ fh.tokenBalanceRaw - e.value < 0 then
          [{ msg := negativeBalanceMsg,
             args := [fh.id, toString (fh.tokenBalanceRaw - e.value)] }]
         else []) := by
  by_cases h : e.fromAddress = ZERO_ADDRESS
  · simp [transferDebit, h]
  · simp only [transferDebit, h, ne_eq, not_false_iff, if_true, if_neg, true_and,
      saveTokenHolder_logs, debitedHolder_tokenBalanceRaw, debitedHolder_id]
    rw [crossingUpdate_logs]
    split_ifs with hlog <;> simp [logError_logs, BIGINT_ZERO] at hlog ⊢ <;> omega

theorem transferCredit_holders (e : TransferEvent) (th : TokenHolder) (s : Store) :
    (transferCredit e th s).holders =
      saveEntity TokenHolder.id (creditedHolder th e.value) s.holders := by
  simp [transferCredit, saveTokenHolder_holders, crossingUpdate_holders]

theorem transferCredit_currentTokenHolders (e : TransferEvent) (th : TokenHolder) (s : Store) :
    (transferCredit e th s).governance.currentTokenHolders =
      s.governance.currentTokenHolders +
        crossingDelta th.tokenBalanceRaw (th.tokenBalanceRaw + e.value) := by
  simp only [transferCredit, saveTokenHolder_governance, creditedHolder_tokenBalanceRaw]
  rw [crossingUpdate_currentTokenHolders]

theorem transferCredit_logs (e : TransferEvent) (th : TokenHolder) (s : Store) :
    (transferCredit e th s).logs = s.logs := by
  simp [transferCredit, saveTokenHolder_logs, crossingUpdate_logs]

theorem handleTransfer_unfold (e : TransferEvent) (s : Store) :
    handleTransfer e s =
      transferCredit e (getTokenHolder e.toAddress s)
        (transferDebit e (getTokenHolder e.fromAddress s) s) := rfl

theorem transferCredit_unfold (e : TransferEvent) (th : TokenHolder) (s : Store) :
    transferCredit e th s =
      saveTokenHolder (creditedHolder th e.value)
        (crossingUpdate th.tokenBalanceRaw (creditedHolder th e.value).tokenBalanceRaw s) := rfl

theorem getTokenHolder_save_self (h : TokenHolder) (s : Store) :
    getTokenHolder h.id (saveTokenHolder h s) = h := by
  unfold getTokenHolder
  rw [saveTokenHolder_holders, findEntity_saveEntity_self]

theorem getTokenHolder_save_of_id (h : TokenHolder) (id : String) (hid : h.id = id)
    (s : Store) : getTokenHolder id (saveTokenHolder h s) = h := by
  subst hid
  exact getTokenHolder_save_self h s

theorem getTokenHolder_save_ne (h : TokenHolder) (id : String) (hne : id ≠ h.id) (s : Store) :
    getTokenHolder id (saveTokenHolder h s) = getTokenHolder id s := by
  unfold getTokenHolder
  rw [saveTokenHolder_holders, findEntity_saveEntity_ne TokenHolder.id h id hne]

theorem getTokenHolder_crossingUpdate (id : String) (p n : Int) (s : Store) :
    getTokenHolder id (crossingUpdate p n s) = getTokenHolder id s := by
  unfold getTokenHolder
  rw [crossingUpdate_holders]

theorem transferDebit_unfold (e : TransferEvent) (fh : TokenHolder) (s : Store)
    (h : e.fromAddress ≠ ZERO_ADDRESS) :
    transferDebit e fh s =
      saveTokenHolder (debitedHolder fh e.value)
        (crossingUpdate fh.tokenBalanceRaw (debitedHolder fh e.value).tokenBalanceRaw
          (if (debitedHolder fh e.value).tokenBalanceRaw < BIGINT_ZERO then
            logError negativeBalanceMsg
              [(debitedHolder fh e.value).id,
               toString (debitedHolder fh e.value).tokenBalanceRaw] s
           else s)) := by
  unfold transferDebit
  rw [if_pos h]

/-! ## Claim C9: a self-transfer credits the single holder with `value`,
the to-side save (captured before any mutation) overwriting the from-side
debit. -/

/-- C9: for every Transfer event with equal, non-zero `from` and `to`
addresses, the holder's persisted `tokenBalanceRaw` after `handleTransfer`
is its previous balance plus `value` (not unchanged): the two sides operate
on two independently loaded copies captured before any mutation, and the
to-side save overwrites the from-side debit. -/
theorem transfer_self_overwrite (s : Store) (e : TransferEvent)
    (hz : e.fromAddress ≠ ZERO_ADDRESS) (hft : e.fromAddress = e.toAddress) :
    (getTokenHolder e.fromAddress (handleTransfer e s)).tokenBalanceRaw =
      (getTokenHolder e.fromAddress s).tokenBalanceRaw + e.value := by
  have hid : e.fromAddress = (creditedHolder (getTokenHolder e.toAddress s) e.value).id := by
    rw [creditedHolder_id, getTokenHolder_id, hft]
  have key : getTokenHolder e.fromAddress (handleTransfer e s) =
      creditedHolder (getTokenHolder e.toAddress s) e.value := by
    rw [handleTransfer_unfold, transferCredit_unfold, hid, getTokenHolder_save_self]
  rw [key, creditedHolder_tokenBalanceRaw, hft]

/-- C9 witness: holder `0xa` minted 100 tokens, then a self-transfer of 7
leaves it at 107. -/
theorem transfer_self_overwrite_witness :
    ("0xa" : String) ≠ ZERO_ADDRESS ∧
      (getTokenHolder "0xa"
          (handleTransfer { fromAddress := "0xa", toAddress := "0xa", value := 7 }
            (applyEvents handleTransfer
              [{ fromAddress := ZERO_ADDRESS, toAddress := "0xa", value := 100 }]
              emptyStore))).tokenBalanceRaw =
        (getTokenHolder "0xa"
            (applyEvents handleTransfer
              [{ fromAddress := ZERO_ADDRESS, toAddress := "0xa", value := 100 }]
              emptyStore)).tokenBalanceRaw + 7 :=
  ⟨by decide,
   transfer_self_overwrite
     (applyEvents handleTransfer
       [{ fromAddress := ZERO_ADDRESS, toAddress := "0xa", value := 100 }] emptyStore)
     { fromAddress := "0xa", toAddress := "0xa", value := 7 } (by decide) rfl⟩

/-! ## Claim C4: overdraft transfers go negative, are logged, and do not
halt processing. -/

/-- C4 counterexample: the claim quantifies over every Transfer whose value
exceeds the from-holder's balance, but when `from = to` the to-side save
overwrites the debit, so the final balance is `100 + 150 = 250`, not the
negative difference `-50`. -/
theorem transfer_overdraft_claim_false :
    (getTokenHolder "0xa"
        (applyEvents handleTransfer
          [{ fromAddress := ZERO_ADDRESS, toAddress := "0xa", value := 100 }]
          emptyStore)).tokenBalanceRaw < 150 ∧
      ("0xa" : String) ≠ ZERO_ADDRESS ∧
      (getTokenHolder "0xa"
          (handleTransfer { fromAddress := "0xa", toAddress := "0xa", value := 150 }
            (applyEvents handleTransfer
              [{ fromAddress := ZERO_ADDRESS, toAddress := "0xa", value := 100 }]
              emptyStore))).tokenBalanceRaw ≠
        (getTokenHolder "0xa"
            (applyEvents handleTransfer
              [{ fromAddress := ZERO_ADDRESS, toAddress := "0xa", value := 100 }]
              emptyStore)).tokenBalanceRaw - 150 := by
  refine ⟨by decide, by decide, by decide⟩

/-- C4 (amended with distinct `from`/`to` addresses): an overdraft transfer
sets the from-holder's persisted balance to the exact negative difference
(no clamping), appends the negative-balance integrity fault to the
observability sink, and subsequent events are still processed. -/
theorem transfer_overdraft_fault (s : Store) (e : TransferEvent) (rest : List TransferEvent)
    (hz : e.fromAddress ≠ ZERO_ADDRESS) (hft : e.fromAddress ≠ e.toAddress)
    (hexceed : (getTokenHolder e.fromAddress s).tokenBalanceRaw < e.value) :
    (getTokenHolder e.fromAddress (handleTransfer e s)).tokenBalanceRaw =
        (getTokenHolder e.fromAddress s).tokenBalanceRaw - e.value ∧
      (handleTransfer e s).logs =
        s.logs ++
          [{ msg := negativeBalanceMsg,
             args := [e.fromAddress,
                      toString ((getTokenHolder e.fromAddress s).tokenBalanceRaw - e.value)] }] ∧
      applyEvents handleTransfer (e :: rest) s =
        applyEvents handleTransfer rest (handleTransfer e s) := by
  refine ⟨?_, ?_, rfl⟩
  · have hto : e.fromAddress ≠ (creditedHolder (getTokenHolder e.toAddress s) e.value).id := by
      rw [creditedHolder_id, getTokenHolder_id]
      exact hft
    have hfrom : e.fromAddress =
        (debitedHolder (getTokenHolder e.fromAddress s) e.value).id := by
      rw [debitedHolder_id, getTokenHolder_id]
    rw [handleTransfer_unfold, transferCredit_unfold,
      getTokenHolder_save_ne _ _ hto, getTokenHolder_crossingUpdate,
      transferDebit_unfold _ _ _ hz,
      getTokenHolder_save_of_id _ _ hfrom.symm, debitedHolder_tokenBalanceRaw]
  · rw [handleTransfer_unfold, transferCredit_logs, transferDebit_logs]
    have hneg : (getTokenHolder e.fromAddress s).tokenBalanceRaw - e.value < 0 := by omega
    rw [if_pos ⟨hz, hneg⟩, getTokenHolder_id]

/-- C4 witness: holder `0xa` at 100, Transfer of 150 to `0xb` yields
balance `-50`, one fault log entry, and continued processing. -/
theorem transfer_overdraft_fault_witness :
    ("0xa" : String) ≠ ZERO_ADDRESS ∧ ("0xa" : String) ≠ "0xb" ∧
      (getTokenHolder "0xa"
          (applyEvents handleTransfer
            [{ fromAddress := ZERO_ADDRESS, toAddress := "0xa", value := 100 }]
            emptyStore)).tokenBalanceRaw < 150 ∧
      ((getTokenHolder "0xa"
          (handleTransfer { fromAddress := "0xa", toAddress := "0xb", value := 150 }
            (applyEvents handleTransfer
              [{ fromAddress := ZERO_ADDRESS, toAddress := "0xa", value := 100 }]
              emptyStore))).tokenBalanceRaw =
        (getTokenHolder "0xa"
            (applyEvents handleTransfer
              [{ fromAddress := ZERO_ADDRESS, toAddress := "0xa", value := 100 }]
              emptyStore)).tokenBalanceRaw - 150 ∧
      (handleTransfer { fromAddress := "0xa", toAddress := "0xb", value := 150 }
          (applyEvents handleTransfer
            [{ fromAddress := ZERO_ADDRESS, toAddress := "0xa", value := 100 }]
            emptyStore)).logs =
        (applyEvents handleTransfer
            [{ fromAddress := ZERO_ADDRESS, toAddress := "0xa", value := 100 }]
            emptyStore).logs ++
          [{ msg := negativeBalanceMsg,
             args := ["0xa",
                      toString ((getTokenHolder "0xa"
                          (applyEvents handleTransfer
                            [{ fromAddress := ZERO_ADDRESS, toAddress := "0xa", value := 100 }]
                            emptyStore)).tokenBalanceRaw - 150)] }] ∧
      applyEvents handleTransfer
          ({ fromAddress := "0xa", toAddress := "0xb", value := 150 } ::
            [{ fromAddress := ZERO_ADDRESS, toAddress := "0xc", value := 1 }])
          (applyEvents handleTransfer
            [{ fromAddress := ZERO_ADDRESS, toAddress := "0xa", value := 100 }]
            emptyStore) =
        applyEvents handleTransfer
          [{ fromAddress := ZERO_ADDRESS, toAddress := "0xc", value := 1 }]
          (handleTransfer { fromAddress := "0xa", toAddress := "0xb", value := 150 }
            (applyEvents handleTransfer
              [{ fromAddress := ZERO_ADDRESS, toAddress := "0xa", value := 100 }]
              emptyStore))) :=
  ⟨by decide, by decide, by decide,
   transfer_overdraft_fault
     (applyEvents handleTransfer
       [{ fromAddress := ZERO_ADDRESS, toAddress := "0xa", value := 100 }] emptyStore)
     { fromAddress := "0xa", toAddress := "0xb", value := 150 }
     [{ fromAddress := ZERO_ADDRESS, toAddress := "0xc", value := 1 }]
     (by decide) (by decide) (by decide)⟩

/-! ## Claim C10: masterchef handlers differ only in sign selection. -/

/-- C10: `handleDeposit` forwards the pool id and the amount unchanged to
the reward-accounting collaborator, while `handleWithdraw` and
`handleEmergencyWithdraw` forward the same pool id with the amount
multiplied by minus one; the three handlers differ only in this sign
selection. -/
theorem masterchef_sign_selection (event : MasterChefEvent) :
    handleDeposit event = handleReward event.pid event.amount ∧
      handleWithdraw event = handleReward event.pid (event.amount * BIGINT_NEG_ONE) ∧
      handleEmergencyWithdraw event = handleWithdraw event ∧
      (handleDeposit event).pid = event.pid ∧
      (handleWithdraw event).pid = event.pid ∧
      (handleEmergencyWithdraw event).pid = event.pid ∧
      (handleDeposit event).amount = event.amount ∧
      (handleWithdraw event).amount = -event.amount ∧
      (handleEmergencyWithdraw event).amount = -event.amount := by
  refine ⟨rfl, rfl, rfl, rfl, rfl, rfl, rfl, ?_, ?_⟩ <;>
    simp [handleWithdraw, handleEmergencyWithdraw, handleReward, BIGINT_NEG_ONE]

/-! ## Projection lemmas for proposals, votes and delegates -/

theorem getDelegate_id (id : String) (s : Store) : (getDelegate id s).id = id := by
  unfold getDelegate
  cases h : findEntity Delegate.id id s.delegates with
  | some w => exact findEntity_eq_some_id Delegate.id id s.delegates w h
  | none => rfl

theorem getProposal_id (id : String) (s : Store) : (getProposal id s).id = id := by
  unfold getProposal
  cases h : findEntity Proposal.id id s.proposals with
  | some w => exact findEntity_eq_some_id Proposal.id id s.proposals w h
  | none => rfl

theorem getProposal_saveGovernance (id : String) (g : Governance) (s : Store) :
    getProposal id (saveGovernance g s) = getProposal id s := rfl

theorem getProposal_saveVote (id : String) (v : Vote) (s : Store) :
    getProposal id (saveVote v s) = getProposal id s := rfl

theorem getProposal_saveDelegate (id : String) (d : Delegate) (s : Store) :
    getProposal id (saveDelegate d s) = getProposal id s := rfl

theorem getProposal_save_of_id (p : Proposal) (id : String) (hid : p.id = id) (s : Store) :
    getProposal id (saveProposal p s) = p := by
  subst hid
  unfold getProposal
  rw [show (saveProposal p s).proposals = saveEntity Proposal.id p s.proposals from rfl,
    findEntity_saveEntity_self]

/-! ## Claim C5: ProposalCreated with an unregistered proposer. -/

/-- C5 counterexample: with an empty store (so the proposer has no Delegate
entity), `handleProposalCreated` logs nothing — `getDelegate` is
get-or-create, so the source's `proposer == null` branch never fires — and
the created proposal's proposer reference is the proposer's address, not a
null/absent reference. -/
theorem proposalCreated_missing_proposer_claim_false :
    findEntity Delegate.id "0xp" emptyStore.delegates = none ∧
      (handleProposalCreated
          { proposalId := 1, proposer := "0xp", targets := ["0xt"], values := [0],
            signatures := ["sig"], calldatas := ["cd"], startBlock := 10, endBlock := 20,
            description := "d", blockNumber := 5, blockTimestamp := 100, txHash := "0xh" }
          emptyStore).logs = [] ∧
      (getProposal "1"
          (handleProposalCreated
            { proposalId := 1, proposer := "0xp", targets := ["0xt"], values := [0],
              signatures := ["sig"], calldatas := ["cd"], startBlock := 10, endBlock := 20,
              description := "d", blockNumber := 5, blockTimestamp := 100, txHash := "0xh" }
            emptyStore)).proposer = some "0xp" := by
  refine ⟨rfl, rfl, rfl⟩

/-- C5 (amended): when the proposer address has no existing Delegate
entity, `handleProposalCreated` still completes, but no integrity fault is
logged (the get-or-create delegate lookup makes the source's null check
unreachable) and the proposal's proposer linkage is the materialized
zero-valued delegate's id, not a null/absent reference. -/
theorem proposalCreated_missing_proposer (s : Store) (e : ProposalCreatedEvent)
    (habsent : findEntity Delegate.id e.proposer s.delegates = none) :
    (handleProposalCreated e s).logs = s.logs ∧
      (getProposal (toString e.proposalId) (handleProposalCreated e s)).proposer =
        some e.proposer := by
  constructor
  · rfl
  · have hmain : getProposal (toString e.proposalId) (handleProposalCreated e s) =
        { getProposal (toString e.proposalId) s with
          proposer := some (getDelegate e.proposer s).id,
          targets := addressesToHexStrings e.targets,
          values := e.values,
          signatures := e.signatures,
          calldatas := e.calldatas,
          creationBlock := e.blockNumber,
          creationTime := e.blockTimestamp,
          startBlock := e.startBlock,
          endBlock := e.endBlock,
          description := e.description,
          state :=
            if e.blockNumber ≥ e.startBlock then PROPOSAL_STATE_ACTIVE
            else PROPOSAL_STATE_PENDING } := by
      unfold handleProposalCreated
      rw [getProposal_saveGovernance]
      refine getProposal_save_of_id _ _ ?_ _
      exact getProposal_id _ _
    rw [hmain]
    show some (getDelegate e.proposer s).id = some e.proposer
    rw [getDelegate_id]

/-- C5 witness: the amended statement applied to the empty store. -/
theorem proposalCreated_missing_proposer_witness :
    findEntity Delegate.id "0xq" emptyStore.delegates = none ∧
      ((handleProposalCreated
          { proposalId := 2, proposer := "0xq", targets := [], values := [],
            signatures := [], calldatas := [], startBlock := 10, endBlock := 20,
            description := "d", blockNumber := 15, blockTimestamp := 100, txHash := "0xh" }
          emptyStore).logs = emptyStore.logs ∧
      (getProposal (toString (2 : Int))
          (handleProposalCreated
            { proposalId := 2, proposer := "0xq", targets := [], values := [],
              signatures := [], calldatas := [], startBlock := 10, endBlock := 20,
              description := "d", blockNumber := 15, blockTimestamp := 100, txHash := "0xh" }
            emptyStore)).proposer = some "0xq") :=
  ⟨rfl,
   proposalCreated_missing_proposer emptyStore
     { proposalId := 2, proposer := "0xq", targets := [], values := [],
       signatures := [], calldatas := [], startBlock := 10, endBlock := 20,
       description := "d", blockNumber := 15, blockTimestamp := 100, txHash := "0xh" }
     rfl⟩

/-! ## Claim C6: VoteCast with an out-of-range support code. -/

/-- C6: a VoteCast whose support code is not 0, 1 or 2 leaves all three
tally counters unchanged (a silent no-op, not an error), yet still persists
a Vote record whose stored choice is the literal support code. -/
theorem voteCast_invalid_support (s : Store) (e : VoteCastEvent)
    (h0 : e.support ≠ 0) (h1 : e.support ≠ 1) (h2 : e.support ≠ 2) :
    (getProposal (toString e.proposalId) (handleVoteCast e s)).againstVotes =
        (getProposal (toString e.proposalId) s).againstVotes ∧
      (getProposal (toString e.proposalId) (handleVoteCast e s)).forVotes =
        (getProposal (toString e.proposalId) s).forVotes ∧
      (getProposal (toString e.proposalId) (handleVoteCast e s)).abstainVotes =
        (getProposal (toString e.proposalId) s).abstainVotes ∧
      findEntity Vote.id (e.voter ++ "-" ++ toString e.proposalId) (handleVoteCast e s).votes =
        some { id := e.voter ++ "-" ++ toString e.proposalId,
               proposal := toString e.proposalId, voter := e.voter,
               weight := e.weight, reason := e.reason,
               choice := getVoteChoiceByValue e.support } ∧
      getVoteChoiceByValue e.support = toString e.support := by
  have hfinal : getProposal (toString e.proposalId) (handleVoteCast e s) =
      (if (getProposal (toString e.proposalId) s).state = PROPOSAL_STATE_PENDING then
        { getProposal (toString e.proposalId) s with state := PROPOSAL_STATE_ACTIVE }
       else getProposal (toString e.proposalId) s) := by
    unfold handleVoteCast
    simp only [if_neg h0, if_neg h1, if_neg h2]
    rw [getProposal_saveDelegate, getProposal_saveVote]
    by_cases hpend :
        (getProposal (toString e.proposalId) s).state = PROPOSAL_STATE_PENDING
    · rw [if_pos hpend]
      refine getProposal_save_of_id _ _ ?_ _
      exact getProposal_id _ _
    · rw [if_neg hpend]
      refine getProposal_save_of_id _ _ ?_ _
      exact getProposal_id _ _
  refine ⟨?_, ?_, ?_, ?_, ?_⟩
  · rw [hfinal]; split_ifs <;> rfl
  · rw [hfinal]; split_ifs <;> rfl
  · rw [hfinal]; split_ifs <;> rfl
  · exact findEntity_saveEntity_self Vote.id
      { id := e.voter ++ "-" ++ toString e.proposalId, proposal := toString e.proposalId,
        voter := e.voter, weight := e.weight, reason := e.reason,
        choice := getVoteChoiceByValue e.support } s.votes
  · unfold getVoteChoiceByValue
    rw [if_neg h0, if_neg h1, if_neg h2]

/-- C6 witness: support code 7 on the empty store. -/
theorem voteCast_invalid_support_witness :
    (7 : Int) ≠ 0 ∧ (7 : Int) ≠ 1 ∧ (7 : Int) ≠ 2 ∧
      ((getProposal (toString (1 : Int))
          (handleVoteCast
            { voter := "0xv", proposalId := 1, support := 7, weight := 9, reason := "r" }
            emptyStore)).againstVotes =
        (getProposal (toString (1 : Int)) emptyStore).againstVotes ∧
      (getProposal (toString (1 : Int))
          (handleVoteCast
            { voter := "0xv", proposalId := 1, support := 7, weight := 9, reason := "r" }
            emptyStore)).forVotes =
        (getProposal (toString (1 : Int)) emptyStore).forVotes ∧
      (getProposal (toString (1 : Int))
          (handleVoteCast
            { voter := "0xv", proposalId := 1, support := 7, weight := 9, reason := "r" }
            emptyStore)).abstainVotes =
        (getProposal (toString (1 : Int)) emptyStore).abstainVotes ∧
      findEntity Vote.id ("0xv" ++ "-" ++ toString (1 : Int))
          (handleVoteCast
            { voter := "0xv", proposalId := 1, support := 7, weight := 9, reason := "r" }
            emptyStore).votes =
        some { id := "0xv" ++ "-" ++ toString (1 : Int), proposal := toString (1 : Int),
               voter := "0xv", weight := 9, reason := "r",
               choice := getVoteChoiceByValue 7 } ∧
      getVoteChoiceByValue 7 = toString (7 : Int)) :=
  ⟨by decide, by decide, by decide,
   voteCast_invalid_support emptyStore
     { voter := "0xv", proposalId := 1, support := 7, weight := 9, reason := "r" }
     (by decide) (by decide) (by decide)⟩

/-! ## Claim C7: VoteCast rebuilds the voter Delegate from scratch. -/

/-- C7: `handleVoteCast` bumps the voter's `numberVotes` by constructing a
fresh `Delegate` record (so the counter of the fresh record, 0, is
incremented to 1) instead of loading the existing one: whatever Delegate
entity previously existed for the voter, the persisted record afterwards
has every other field reset to its default value. -/
theorem voteCast_resets_delegate (s : Store) (e : VoteCastEvent) (d : Delegate)
    (hpre : findEntity Delegate.id e.voter s.delegates = some d) :
    findEntity Delegate.id e.voter (handleVoteCast e s).delegates =
      some { id := e.voter, delegatedVotesRaw := 0, delegatedVotes := 0,
             tokenHoldersRepresentedAmount := 0,
             numberVotes := (freshDelegate e.voter).numberVotes + 1 } := by
  have hd : (handleVoteCast e s).delegates =
      saveEntity Delegate.id
        { id := e.voter, delegatedVotesRaw := 0, delegatedVotes := 0,
          tokenHoldersRepresentedAmount := 0,
          numberVotes := (freshDelegate e.voter).numberVotes + 1 } s.delegates := rfl
  rw [hd]
  exact findEntity_saveEntity_self Delegate.id
    { id := e.voter, delegatedVotesRaw := 0, delegatedVotes := 0,
      tokenHoldersRepresentedAmount := 0,
      numberVotes := (freshDelegate e.voter).numberVotes + 1 } s.delegates

/-- C7 witness: a pre-existing Delegate for `0xv` with nonzero delegated
votes and represented holders is reset to defaults (with `numberVotes` 1)
by a vote cast. -/
theorem voteCast_resets_delegate_witness :
    findEntity Delegate.id "0xv"
        (saveDelegate
          { id := "0xv", delegatedVotesRaw := 5, delegatedVotes := toDecimal 5,
            tokenHoldersRepresentedAmount := 3, numberVotes := 7 }
          emptyStore).delegates =
      some { id := "0xv", delegatedVotesRaw := 5, delegatedVotes := toDecimal 5,
             tokenHoldersRepresentedAmount := 3, numberVotes := 7 } ∧
      findEntity Delegate.id "0xv"
          (handleVoteCast
            { voter := "0xv", proposalId := 1, support := 0, weight := 10, reason := "" }
            (saveDelegate
              { id := "0xv", delegatedVotesRaw := 5, delegatedVotes := toDecimal 5,
                tokenHoldersRepresentedAmount := 3, numberVotes := 7 }
              emptyStore)).delegates =
        some { id := "0xv", delegatedVotesRaw := 0, delegatedVotes := 0,
               tokenHoldersRepresentedAmount := 0,
               numberVotes := (freshDelegate "0xv").numberVotes + 1 } :=
  ⟨rfl,
   voteCast_resets_delegate
     (saveDelegate
       { id := "0xv", delegatedVotesRaw := 5, delegatedVotes := toDecimal 5,
         tokenHoldersRepresentedAmount := 3, numberVotes := 7 }
       emptyStore)
     { voter := "0xv", proposalId := 1, support := 0, weight := 10, reason := "" }
     { id := "0xv", delegatedVotesRaw := 5, delegatedVotes := toDecimal 5,
       tokenHoldersRepresentedAmount := 3, numberVotes := 7 }
     rfl⟩

/-! ## Claim C8: Created, Queued, Executed lifecycle. -/

theorem getProposal_handleProposalQueued (e : ProposalQueuedEvent) (id : String)
    (hid : id = toString e.proposalId) (s : Store) :
    getProposal id (handleProposalQueued e s) =
      { getProposal id s with
        state := PROPOSAL_STATE_QUEUED, executionETA := some e.eta } := by
  subst hid
  unfold handleProposalQueued
  rw [getProposal_saveGovernance]
  refine getProposal_save_of_id _ _ ?_ _
  exact getProposal_id _ _

theorem getProposal_handleProposalExecuted (e : ProposalExecutedEvent) (id : String)
    (hid : id = toString e.proposalId) (s : Store) :
    getProposal id (handleProposalExecuted e s) =
      { getProposal id s with
        state := PROPOSAL_STATE_EXECUTED, executionETA := none,
        executionBlock := e.blockNumber, executionTime := e.blockTimestamp } := by
  subst hid
  unfold handleProposalExecuted
  rw [getProposal_saveGovernance]
  refine getProposal_save_of_id _ _ ?_ _
  exact getProposal_id _ _

theorem handleProposalCreated_governance (e : ProposalCreatedEvent) (s : Store) :
    (handleProposalCreated e s).governance =
      { s.governance with proposals := s.governance.proposals + BIGINT_ONE } := rfl

theorem handleProposalQueued_governance (e : ProposalQueuedEvent) (s : Store) :
    (handleProposalQueued e s).governance =
      { s.governance with
        proposalsQueued := s.governance.proposalsQueued + BIGINT_ONE } := rfl

theorem handleProposalExecuted_governance (e : ProposalExecutedEvent) (s : Store) :
    (handleProposalExecuted e s).governance =
      { s.governance with
        proposalsQueued := s.governance.proposalsQueued - BIGINT_ONE,
        proposalsExecuted := s.governance.proposalsExecuted + BIGINT_ONE } := rfl

/-- C8: applying ProposalCreated, ProposalQueued, ProposalExecuted for the
same fresh proposal id yields final state Executed with `executionETA`
null, a zero net change to `Governance.proposalsQueued`, and
`Governance.proposalsExecuted` incremented by exactly 1. -/
theorem proposal_lifecycle_executed (s : Store) (ce : ProposalCreatedEvent)
    (eta execBlock execTime : Int)
    (hfresh : findEntity Proposal.id (toString ce.proposalId) s.proposals = none) :
    (getProposal (toString ce.proposalId)
        (handleProposalExecuted
          { proposalId := ce.proposalId, blockNumber := execBlock,
            blockTimestamp := execTime }
          (handleProposalQueued { proposalId := ce.proposalId, eta := eta }
            (handleProposalCreated ce s)))).state = PROPOSAL_STATE_EXECUTED ∧
      (getProposal (toString ce.proposalId)
          (handleProposalExecuted
            { proposalId := ce.proposalId, blockNumber := execBlock,
              blockTimestamp := execTime }
            (handleProposalQueued { proposalId := ce.proposalId, eta := eta }
              (handleProposalCreated ce s)))).executionETA = none ∧
      (handleProposalExecuted
          { proposalId := ce.proposalId, blockNumber := execBlock,
            blockTimestamp := execTime }
          (handleProposalQueued { proposalId := ce.proposalId, eta := eta }
            (handleProposalCreated ce s))).governance.proposalsQueued =
        s.governance.proposalsQueued ∧
      (handleProposalExecuted
          { proposalId := ce.proposalId, blockNumber := execBlock,
            blockTimestamp := execTime }
          (handleProposalQueued { proposalId := ce.proposalId, eta := eta }
            (handleProposalCreated ce s))).governance.proposalsExecuted =
        s.governance.proposalsExecuted + 1 := by
  rw [getProposal_handleProposalExecuted
      { proposalId := ce.proposalId, blockNumber := execBlock, blockTimestamp := execTime }
      (toString ce.proposalId) rfl,
    handleProposalExecuted_governance, handleProposalQueued_governance,
    handleProposalCreated_governance]
  refine ⟨rfl, rfl, ?_, ?_⟩ <;> simp [BIGINT_ONE]

/-- C8 witness: the lifecycle on the empty store. -/
theorem proposal_lifecycle_executed_witness :
    findEntity Proposal.id (toString (3 : Int)) emptyStore.proposals = none ∧
      ((getProposal (toString (3 : Int))
          (handleProposalExecuted
            { proposalId := (3 : Int), blockNumber := 60, blockTimestamp := 600 }
            (handleProposalQueued { proposalId := (3 : Int), eta := 555 }
              (handleProposalCreated
                { proposalId := 3, proposer := "0xp", targets := [], values := [],
                  signatures := [], calldatas := [], startBlock := 10, endBlock := 20,
                  description := "d", blockNumber := 12, blockTimestamp := 120,
                  txHash := "0xh" }
                emptyStore)))).state = PROPOSAL_STATE_EXECUTED ∧
      (getProposal (toString (3 : Int))
          (handleProposalExecuted
            { proposalId := (3 : Int), blockNumber := 60, blockTimestamp := 600 }
            (handleProposalQueued { proposalId := (3 : Int), eta := 555 }
              (handleProposalCreated
                { proposalId := 3, proposer := "0xp", targets := [], values := [],
                  signatures := [], calldatas := [], startBlock := 10, endBlock := 20,
                  description := "d", blockNumber := 12, blockTimestamp := 120,
                  txHash := "0xh" }
                emptyStore)))).executionETA = none ∧
      (handleProposalExecuted
          { proposalId := (3 : Int), blockNumber := 60, blockTimestamp := 600 }
          (handleProposalQueued { proposalId := (3 : Int), eta := 555 }
            (handleProposalCreated
              { proposalId := 3, proposer := "0xp", targets := [], values := [],
                signatures := [], calldatas := [], startBlock := 10, endBlock := 20,
                description := "d", blockNumber := 12, blockTimestamp := 120,
                txHash := "0xh" }
              emptyStore))).governance.proposalsQueued =
        emptyStore.governance.proposalsQueued ∧
      (handleProposalExecuted
          { proposalId := (3 : Int), blockNumber := 60, blockTimestamp := 600 }
          (handleProposalQueued { proposalId := (3 : Int), eta := 555 }
            (handleProposalCreated
              { proposalId := 3, proposer := "0xp", targets := [], values := [],
                signatures := [], calldatas := [], startBlock := 10, endBlock := 20,
                description := "d", blockNumber := 12, blockTimestamp := 120,
                txHash := "0xh" }
              emptyStore))).governance.proposalsExecuted =
        emptyStore.governance.proposalsExecuted + 1) :=
  ⟨rfl,
   proposal_lifecycle_executed emptyStore
     { proposalId := 3, proposer := "0xp", targets := [], values := [],
       signatures := [], calldatas := [], startBlock := 10, endBlock := 20,
       description := "d", blockNumber := 12, blockTimestamp := 120, txHash := "0xh" }
     555 60 600 rfl⟩

/-! ## Trace admissibility conditions for Transfer sequences -/

/-- The event is not a self-transfer: either a mint (zero `from` address,
for which no debit happens) or distinct `from`/`to` addresses. -/
def noSelfTransferB (e : TransferEvent) : Bool :=
  decide (e.fromAddress = ZERO_ADDRESS) || !(decide (e.fromAddress = e.toAddress))

/-- The event does not drive any holder's balance negative in the store it
is applied to: the debited balance (when `from` is not the zero address)
and the credited balance both stay non-negative. -/
def transferNonNegB (s : Store) (e : TransferEvent) : Bool :=
  (decide (e.fromAddress = ZERO_ADDRESS) ||
      decide (0 ≤ (getTokenHolder e.fromAddress s).tokenBalanceRaw - e.value)) &&
    decide (0 ≤ (getTokenHolder e.toAddress s).tokenBalanceRaw + e.value)

/-- Admissibility for the amended C1 invariant: no self-transfers and no
negative balances. -/
def transferOkC1B (s : Store) (e : TransferEvent) : Bool :=
  noSelfTransferB e && transferNonNegB s e

/-- Exactly the conditions stated by the supply-conservation claim:
non-negative values and no event producing a negative balance. -/
def transferValuesOkB (s : Store) (e : TransferEvent) : Bool :=
  decide (0 ≤ e.value) && transferNonNegB s e

/-- Admissibility for the amended C3 invariant: the claim's stated
conditions plus no self-transfers. -/
def transferOkC3B (s : Store) (e : TransferEvent) : Bool :=
  noSelfTransferB e && decide (0 ≤ e.value) && transferNonNegB s e

theorem foundCount_saveEntity_ne {β : Type} (p : β → Bool) (idOf : β → String)
    (v : β) (id : String) (h : id ≠ idOf v) (l : List β) :
    foundCount p idOf id (saveEntity idOf v l) = foundCount p idOf id l := by
  unfold foundCount
  rw [findEntity_saveEntity_ne idOf v id h]

theorem foundSum_saveEntity_ne {β : Type} (f : β → Int) (idOf : β → String)
    (v : β) (id : String) (h : id ≠ idOf v) (l : List β) :
    foundSum f idOf id (saveEntity idOf v l) = foundSum f idOf id l := by
  unfold foundSum
  rw [findEntity_saveEntity_ne idOf v id h]

/-! ## Claim C1: currentTokenHolders tracks the positive-balance count. -/

/-- C1 single-event preservation: under no-self-transfer and non-negative
balances, `handleTransfer` keeps `currentTokenHolders` equal to the number
of holders with strictly positive balance, and keeps all balances
non-negative. -/
theorem transfer_count_step (s : Store) (e : TransferEvent)
    (hcount : s.governance.currentTokenHolders = countPositiveHolders s.holders)
    (hnn : ∀ h ∈ s.holders, 0 ≤ h.tokenBalanceRaw)
    (hok : transferOkC1B s e = true) :
    (handleTransfer e s).governance.currentTokenHolders =
        countPositiveHolders (handleTransfer e s).holders ∧
      ∀ h ∈ (handleTransfer e s).holders, 0 ≤ h.tokenBalanceRaw := by
  simp only [transferOkC1B, noSelfTransferB, transferNonNegB, Bool.and_eq_true,
    Bool.or_eq_true, Bool.not_eq_true', decide_eq_true_eq, decide_eq_false_iff_not] at hok
  obtain ⟨hns, hfr, hto⟩ := hok
  have htb0 : 0 ≤ (getTokenHolder e.toAddress s).tokenBalanceRaw :=
    getTokenHolder_nonneg e.toAddress s hnn
  have hfb0 : 0 ≤ (getTokenHolder e.fromAddress s).tokenBalanceRaw :=
    getTokenHolder_nonneg e.fromAddress s hnn
  rw [handleTransfer_unfold]
  by_cases hz : e.fromAddress = ZERO_ADDRESS
  · have hd0 : transferDebit e (getTokenHolder e.fromAddress s) s = s := by
      simp [transferDebit, hz]
    rw [hd0]
    have hcnt : countPositiveHolders
        (saveEntity TokenHolder.id
          (creditedHolder (getTokenHolder e.toAddress s) e.value) s.holders) =
        countPositiveHolders s.holders +
          (if 0 < (getTokenHolder e.toAddress s).tokenBalanceRaw + e.value then (1 : Int)
           else 0) -
          (if 0 < (getTokenHolder e.toAddress s).tokenBalanceRaw then (1 : Int) else 0) := by
      unfold countPositiveHolders
      rw [countEntity_saveEntity, creditedHolder_id, getTokenHolder_id, foundCount_holders]
      simp only [creditedHolder_tokenBalanceRaw, decide_eq_true_eq]
    constructor
    · rw [transferCredit_currentTokenHolders, transferCredit_holders, hcnt,
        crossingDelta_eq _ _ htb0 hto, hcount]
      ring
    · intro h hmem
      rw [transferCredit_holders] at hmem
      rcases mem_saveEntity _ _ _ _ hmem with hcred | hold
      · rw [hcred, creditedHolder_tokenBalanceRaw]; exact hto
      · exact hnn h hold
  · have hft : ¬e.fromAddress = e.toAddress := hns.resolve_left hz
    have hfr2 : 0 ≤ (getTokenHolder e.fromAddress s).tokenBalanceRaw - e.value :=
      hfr.resolve_left hz
    have hdh : (transferDebit e (getTokenHolder e.fromAddress s) s).holders =
        saveEntity TokenHolder.id
          (debitedHolder (getTokenHolder e.fromAddress s) e.value) s.holders := by
      rw [transferDebit_holders, if_neg hz]
    have hdc : (transferDebit e (getTokenHolder e.fromAddress s) s).governance.currentTokenHolders =
        s.governance.currentTokenHolders +
          crossingDelta (getTokenHolder e.fromAddress s).tokenBalanceRaw
            ((getTokenHolder e.fromAddress s).tokenBalanceRaw - e.value) := by
      rw [transferDebit_currentTokenHolders, if_neg hz]
    have hcnt1 : countPositiveHolders
        (transferDebit e (getTokenHolder e.fromAddress s) s).holders =
        countPositiveHolders s.holders +
          (if 0 < (getTokenHolder e.fromAddress s).tokenBalanceRaw - e.value then (1 : Int)
           else 0) -
          (if 0 < (getTokenHolder e.fromAddress s).tokenBalanceRaw then (1 : Int) else 0) := by
      rw [hdh]
      unfold countPositiveHolders
      rw [countEntity_saveEntity, debitedHolder_id, getTokenHolder_id, foundCount_holders]
      simp only [debitedHolder_tokenBalanceRaw, decide_eq_true_eq]
    have hne : e.toAddress ≠
        (debitedHolder (getTokenHolder e.fromAddress s) e.value).id := by
      rw [debitedHolder_id, getTokenHolder_id]
      exact fun hh => hft hh.symm
    have hftb : foundCount (fun h => decide (0 < h.tokenBalanceRaw)) TokenHolder.id
        e.toAddress (transferDebit e (getTokenHolder e.fromAddress s) s).holders =
        (if 0 < (getTokenHolder e.toAddress s).tokenBalanceRaw then (1 : Int) else 0) := by
      rw [hdh, foundCount_saveEntity_ne _ _ _ _ hne, foundCount_holders]
    have hcnt2 : countPositiveHolders
        (saveEntity TokenHolder.id
          (creditedHolder (getTokenHolder e.toAddress s) e.value)
          (transferDebit e (getTokenHolder e.fromAddress s) s).holders) =
        countPositiveHolders
            (transferDebit e (getTokenHolder e.fromAddress s) s).holders +
          (if 0 < (getTokenHolder e.toAddress s).tokenBalanceRaw + e.value then (1 : Int)
           else 0) -
          (if 0 < (getTokenHolder e.toAddress s).tokenBalanceRaw then (1 : Int) else 0) := by
      unfold countPositiveHolders
      rw [countEntity_saveEntity, creditedHolder_id, getTokenHolder_id, hftb]
      simp only [creditedHolder_tokenBalanceRaw, decide_eq_true_eq]
    constructor
    · rw [transferCredit_currentTokenHolders, transferCredit_holders, hcnt2, hcnt1, hdc,
        crossingDelta_eq _ _ hfb0 hfr2, crossingDelta_eq _ _ htb0 hto, hcount]
      ring
    · intro h hmem
      rw [transferCredit_holders] at hmem
      rcases mem_saveEntity _ _ _ _ hmem with hcred | hold
      · rw [hcred, creditedHolder_tokenBalanceRaw]; exact hto
      · rw [hdh] at hold
        rcases mem_saveEntity _ _ _ _ hold with hdeb | hold2
        · rw [hdeb, debitedHolder_tokenBalanceRaw]; exact hfr2
        · exact hnn h hold2

/-- C1 counterexample: over the unrestricted event space the claim fails —
mint 5 to `0xa`, then a self-transfer of 5 from `0xa` to itself: the
from-side decrements `currentTokenHolders` (balance read as reaching zero)
while the to-side save leaves the holder at balance 10, so the counter is 0
but one holder has strictly positive balance. -/
theorem transfer_holderCount_claim_false :
    (applyEvents handleTransfer
        [{ fromAddress := ZERO_ADDRESS, toAddress := "0xa", value := 5 },
         { fromAddress := "0xa", toAddress := "0xa", value := 5 }]
        emptyStore).governance.currentTokenHolders ≠
      countPositiveHolders
        (applyEvents handleTransfer
          [{ fromAddress := ZERO_ADDRESS, toAddress := "0xa", value := 5 },
           { fromAddress := "0xa", toAddress := "0xa", value := 5 }]
          emptyStore).holders := by
  decide

/-- C1 (amended): for every sequence of Transfer events applied in order
from the empty store in which no event is a self-transfer and no event
drives a holder's balance negative, `Governance.currentTokenHolders` equals
the number of TokenHolder entities with strictly positive
`tokenBalanceRaw` after each event. -/
theorem transfer_holderCount_invariant (events : List TransferEvent)
    (hok : traceOkB handleTransfer transferOkC1B emptyStore events = true) :
    (applyEvents handleTransfer events emptyStore).governance.currentTokenHolders =
      countPositiveHolders (applyEvents handleTransfer events emptyStore).holders := by
  have base : emptyStore.governance.currentTokenHolders =
      countPositiveHolders emptyStore.holders ∧
      ∀ h ∈ emptyStore.holders, 0 ≤ h.tokenBalanceRaw := by
    refine ⟨rfl, ?_⟩
    intro h hmem
    simp [emptyStore] at hmem
  exact (applyEvents_invariant handleTransfer transferOkC1B
    (fun st => st.governance.currentTokenHolders = countPositiveHolders st.holders ∧
      ∀ h ∈ st.holders, 0 ≤ h.tokenBalanceRaw)
    (fun st ev hP hOk => transfer_count_step st ev hP.1 hP.2 hOk)
    events emptyStore base hok).1

/-- C1 witness: a mint followed by an ordinary transfer satisfies the
admissibility condition and the invariant. -/
theorem transfer_holderCount_invariant_witness :
    traceOkB handleTransfer transferOkC1B emptyStore
        [{ fromAddress := ZERO_ADDRESS, toAddress := "0xa", value := 5 },
         { fromAddress := "0xa", toAddress := "0xb", value := 2 }] = true ∧
      (applyEvents handleTransfer
          [{ fromAddress := ZERO_ADDRESS, toAddress := "0xa", value := 5 },
           { fromAddress := "0xa", toAddress := "0xb", value := 2 }]
          emptyStore).governance.currentTokenHolders =
        countPositiveHolders
          (applyEvents handleTransfer
            [{ fromAddress := ZERO_ADDRESS, toAddress := "0xa", value := 5 },
             { fromAddress := "0xa", toAddress := "0xb", value := 2 }]
            emptyStore).holders :=
  ⟨by decide,
   transfer_holderCount_invariant
     [{ fromAddress := ZERO_ADDRESS, toAddress := "0xa", value := 5 },
      { fromAddress := "0xa", toAddress := "0xb", value := 2 }]
     (by decide)⟩

/-! ## Claim C3: total balances equal total minted supply. -/

theorem mintedTotal_cons (e : TransferEvent) (rest : List TransferEvent) :
    mintedTotal (e :: rest) =
      (if e.fromAddress = ZERO_ADDRESS then e.value else 0) + mintedTotal rest := by
  by_cases h : e.fromAddress = ZERO_ADDRESS <;>
    simp [mintedTotal, List.filter_cons, h]

/-- C3 single-event effect on the balance sum: a mint adds its value, a
non-self transfer between distinct addresses leaves the sum unchanged. -/
theorem transfer_sum_step (s : Store) (e : TransferEvent)
    (hok : transferOkC3B s e = true) :
    sumBalances (handleTransfer e s).holders =
      sumBalances s.holders + (if e.fromAddress = ZERO_ADDRESS then e.value else 0) := by
  simp only [transferOkC3B, noSelfTransferB, transferNonNegB, Bool.and_eq_true,
    Bool.or_eq_true, Bool.not_eq_true', decide_eq_true_eq, decide_eq_false_iff_not] at hok
  obtain ⟨⟨hns, hval⟩, hfr, hto⟩ := hok
  rw [handleTransfer_unfold]
  by_cases hz : e.fromAddress = ZERO_ADDRESS
  · have hd0 : transferDebit e (getTokenHolder e.fromAddress s) s = s := by
      simp [transferDebit, hz]
    rw [hd0, transferCredit_holders, if_pos hz]
    unfold sumBalances
    rw [sumEntity_saveEntity, creditedHolder_id, getTokenHolder_id, foundSum_holders]
    simp only [creditedHolder_tokenBalanceRaw]
    ring
  · have hft : ¬e.fromAddress = e.toAddress := hns.resolve_left hz
    have hdh : (transferDebit e (getTokenHolder e.fromAddress s) s).holders =
        saveEntity TokenHolder.id
          (debitedHolder (getTokenHolder e.fromAddress s) e.value) s.holders := by
      rw [transferDebit_holders, if_neg hz]
    have hne : e.toAddress ≠
        (debitedHolder (getTokenHolder e.fromAddress s) e.value).id := by
      rw [debitedHolder_id, getTokenHolder_id]
      exact fun hh => hft hh.symm
    rw [transferCredit_holders, if_neg hz]
    unfold sumBalances
    rw [sumEntity_saveEntity, creditedHolder_id, getTokenHolder_id, hdh,
      foundSum_saveEntity_ne _ _ _ _ hne, foundSum_holders, sumEntity_saveEntity,
      debitedHolder_id, getTokenHolder_id, foundSum_holders]
    simp only [creditedHolder_tokenBalanceRaw, debitedHolder_tokenBalanceRaw]
    ring

/-- C3 trace lemma, generalized over the starting store. -/
theorem transfer_supply_trace (events : List TransferEvent) :
    ∀ s : Store, traceOkB handleTransfer transferOkC3B s events = true →
      sumBalances (applyEvents handleTransfer events s).holders =
        sumBalances s.holders + mintedTotal events := by
  induction events with
  | nil =>
      intro s _
      simp [applyEvents, mintedTotal, sumBalances, sumEntity]
  | cons e rest ih =>
      intro s hok
      rw [traceOkB, Bool.and_eq_true] at hok
      rw [applyEvents_cons, ih _ hok.2, transfer_sum_step s e hok.1, mintedTotal_cons]
      ring

/-- C3 counterexample: under exactly the claim's stated conditions
(non-negative values, no event producing a negative balance) the claim
fails — mint 5 to `0xa`, then a self-transfer of 5: the to-side save
overwrites the debit, leaving total balances 10 while only 5 were ever
minted. -/
theorem transfer_supply_claim_false :
    traceOkB handleTransfer transferValuesOkB emptyStore
        [{ fromAddress := ZERO_ADDRESS, toAddress := "0xa", value := 5 },
         { fromAddress := "0xa", toAddress := "0xa", value := 5 }] = true ∧
      sumBalances
          (applyEvents handleTransfer
            [{ fromAddress := ZERO_ADDRESS, toAddress := "0xa", value := 5 },
             { fromAddress := "0xa", toAddress := "0xa", value := 5 }]
            emptyStore).holders ≠
        mintedTotal
          [{ fromAddress := ZERO_ADDRESS, toAddress := "0xa", value := 5 },
           { fromAddress := "0xa", toAddress := "0xa", value := 5 }] := by
  refine ⟨by decide, by decide⟩

/-- C3 (amended with no self-transfers): for every sequence of Transfer
events with non-negative values, no self-transfers, and no event driving a
balance negative, applied in order from the empty store, the sum of
`tokenBalanceRaw` over all TokenHolder entities equals the total minted
supply (the sum of the values of events whose `from` is the zero
address). -/
theorem transfer_supply_conservation (events : List TransferEvent)
    (hok : traceOkB handleTransfer transferOkC3B emptyStore events = true) :
    sumBalances (applyEvents handleTransfer events emptyStore).holders =
      mintedTotal events := by
  have h := transfer_supply_trace events emptyStore hok
  simpa [emptyStore, sumBalances, sumEntity] using h

/-- C3 witness: a mint and a full spend. -/
theorem transfer_supply_conservation_witness :
    traceOkB handleTransfer transferOkC3B emptyStore
        [{ fromAddress := ZERO_ADDRESS, toAddress := "0xa", value := 5 },
         { fromAddress := "0xa", toAddress := "0xb", value := 5 }] = true ∧
      sumBalances
          (applyEvents handleTransfer
            [{ fromAddress := ZERO_ADDRESS, toAddress := "0xa", value := 5 },
             { fromAddress := "0xa", toAddress := "0xb", value := 5 }]
            emptyStore).holders =
        mintedTotal
          [{ fromAddress := ZERO_ADDRESS, toAddress := "0xa", value := 5 },
           { fromAddress := "0xa", toAddress := "0xb", value := 5 }] :=
  ⟨by decide,
   transfer_supply_conservation
     [{ fromAddress := ZERO_ADDRESS, toAddress := "0xa", value := 5 },
      { fromAddress := "0xa", toAddress := "0xb", value := 5 }]
     (by decide)⟩

/-! ## Claim C2: currentDelegates tracks the positive-vote count. -/

/-- The fresh Delegate record that `handleDelegateVotesChanged` saves. -/
def dvcRecord (e : DelegateVotesChangedEvent) : Delegate :=
  { freshDelegate e.delegate with
    delegatedVotesRaw := e.newBalance, delegatedVotes := toDecimal e.newBalance }

theorem dvcRecord_id (e : DelegateVotesChangedEvent) : (dvcRecord e).id = e.delegate := rfl

theorem dvcRecord_votesRaw (e : DelegateVotesChangedEvent) :
    (dvcRecord e).delegatedVotesRaw = e.newBalance := rfl

theorem handleDelegateVotesChanged_delegates (e : DelegateVotesChangedEvent) (s : Store) :
    (handleDelegateVotesChanged e s).delegates =
      saveEntity Delegate.id (dvcRecord e) s.delegates := rfl

/-- The `currentDelegates` update applied by the handler: increment on an
exact zero-to-positive move, decrement whenever the new balance is exactly
zero (note: without a guard on the previous balance). -/
theorem handleDelegateVotesChanged_currentDelegates (e : DelegateVotesChangedEvent)
    (s : Store) :
    (handleDelegateVotesChanged e s).governance.currentDelegates =
      s.governance.currentDelegates +
        (if e.previousBalance = 0 ∧ e.newBalance > 0 then (1 : Int) else 0) -
        (if e.newBalance = 0 then (1 : Int) else 0) := by
  simp only [handleDelegateVotesChanged, saveGovernance, saveDelegate, BIGINT_ZERO,
    BIGINT_ONE]
  split_ifs <;> simp <;> omega

/-- Admissibility for the amended C2 invariant: the event's
`previousBalance` matches the delegate's stored raw votes (zero when
absent), both balances are non-negative, and the event is not a degenerate
zero-to-zero change (on which the unguarded decrement fires). -/
def delegateVotesOkB (s : Store) (e : DelegateVotesChangedEvent) : Bool :=
  decide ((getDelegate e.delegate s).delegatedVotesRaw = e.previousBalance) &&
    decide (0 ≤ e.previousBalance) && decide (0 ≤ e.newBalance) &&
    !(decide (e.previousBalance = 0) && decide (e.newBalance = 0))

/-- C2 single-event preservation under the admissibility condition. -/
theorem delegateVotes_count_step (s : Store) (e : DelegateVotesChangedEvent)
    (hcount : s.governance.currentDelegates = countPositiveDelegates s.delegates)
    (hok : delegateVotesOkB s e = true) :
    (handleDelegateVotesChanged e s).governance.currentDelegates =
      countPositiveDelegates (handleDelegateVotesChanged e s).delegates := by
  simp only [delegateVotesOkB, Bool.and_eq_true, Bool.not_eq_true', Bool.and_eq_false_iff,
    decide_eq_true_eq, decide_eq_false_iff_not] at hok
  obtain ⟨⟨⟨hprev, hp⟩, hn⟩, hnz⟩ := hok
  have hcnt : countPositiveDelegates (handleDelegateVotesChanged e s).delegates =
      countPositiveDelegates s.delegates +
        (if 0 < e.newBalance then (1 : Int) else 0) -
        (if 0 < e.previousBalance then (1 : Int) else 0) := by
    rw [handleDelegateVotesChanged_delegates]
    unfold countPositiveDelegates
    rw [countEntity_saveEntity, dvcRecord_id, getDelegate_votesRaw, hprev]
    simp only [dvcRecord_votesRaw, decide_eq_true_eq]
  rw [hcnt, handleDelegateVotesChanged_currentDelegates, hcount]
  split_ifs <;> omega

/-- C2 counterexample: a single event with `previousBalance = 0` and
`newBalance = 0` — the decrement branch tests only `newBalance == 0`, so
`currentDelegates` drops to `-1` while no delegate has positive votes; in
particular the decrement is not restricted to moves from positive to
zero. -/
theorem delegate_count_claim_false :
    (applyEvents handleDelegateVotesChanged
        [{ delegate := "0xd", previousBalance := 0, newBalance := 0 }]
        emptyStore).governance.currentDelegates ≠
      countPositiveDelegates
        (applyEvents handleDelegateVotesChanged
          [{ delegate := "0xd", previousBalance := 0, newBalance := 0 }]
          emptyStore).delegates := by
  decide

/-- C2 (amended): the decrement fires whenever `newBalance = 0`, even from
a previous balance of zero; for every sequence of DelegateVotesChanged
events applied in order from the empty store in which each event's
`previousBalance` equals the delegate's stored `delegatedVotesRaw`, both
balances are non-negative, and no event moves from zero to zero,
`Governance.currentDelegates` equals the number of Delegate entities with
strictly positive `delegatedVotesRaw` after each event. -/
theorem delegate_count_invariant (events : List DelegateVotesChangedEvent)
    (hok : traceOkB handleDelegateVotesChanged delegateVotesOkB emptyStore events = true) :
    (applyEvents handleDelegateVotesChanged events emptyStore).governance.currentDelegates =
      countPositiveDelegates
        (applyEvents handleDelegateVotesChanged events emptyStore).delegates :=
  applyEvents_invariant handleDelegateVotesChanged delegateVotesOkB
    (fun st => st.governance.currentDelegates = countPositiveDelegates st.delegates)
    (fun st ev hP hOk => delegateVotes_count_step st ev hP hOk)
    events emptyStore rfl hok

/-- C2 witness: gaining and then losing delegated votes. -/
theorem delegate_count_invariant_witness :
    traceOkB handleDelegateVotesChanged delegateVotesOkB emptyStore
        [{ delegate := "0xd", previousBalance := 0, newBalance := 5 },
         { delegate := "0xd", previousBalance := 5, newBalance := 0 }] = true ∧
      (applyEvents handleDelegateVotesChanged
          [{ delegate := "0xd", previousBalance := 0, newBalance := 5 },
           { delegate := "0xd", previousBalance := 5, newBalance := 0 }]
          emptyStore).governance.currentDelegates =
        countPositiveDelegates
          (applyEvents handleDelegateVotesChanged
            [{ delegate := "0xd", previousBalance := 0, newBalance := 5 },
             { delegate := "0xd", previousBalance := 5, newBalance := 0 }]
            emptyStore).delegates :=
  ⟨by decide,
   delegate_count_invariant
     [{ delegate := "0xd", previousBalance := 0, newBalance := 5 },
      { delegate := "0xd", previousBalance := 5, newBalance := 0 }]
     (by decide)⟩

end Subgraphs
